import Mathlib

/-!
Shallow embedding of the stake-test trading demo core:
`PortfolioService.addStock` (src/unnamed/part_005, second service variant,
the one whose line numbers the claims cite: validation by purchase value,
incremental totalEquity, 0.01% seeded initial gain),
`MockDataService.getMockPortfolio` / `getMockStocks`
(src/src/app/core/services/mock-data.service.ts), and
`ModalService` (src/src/app/core/services/modal.service.ts, the variant
with `toggleOrderModal`).

JavaScript `number` arithmetic is modelled over ℚ; all literal prices of
the repository are exact decimal fractions, so every concrete computation
of the claims is exact.  Errors thrown inside the service are modelled
with `Except String`; the method-level try/catch, which forwards the
error to `ErrorHandlerService.handleError` instead of rethrowing, is
modelled by `addStock` returning an `AddStockOutcome` that records the
final subject state, the value published to subscribers (if any), and
the message handed to the error handler (if any).
-/

namespace StakeApp

/-- `Stock` from the repository interfaces (src/unnamed/part_003). -/
structure Stock where
  symbol : String
  companyName : String
  price : ℚ
  change : ℚ
  changePercent : ℚ
  volume : ℚ
  logo : String
deriving DecidableEq

/-- `StockHolding` from the repository interfaces (src/unnamed/part_003). -/
structure StockHolding where
  stock : Stock
  quantity : ℚ
  averagePrice : ℚ
  totalValue : ℚ
  gainLoss : ℚ
  gainLossPercent : ℚ
deriving DecidableEq

/-- `Portfolio` as actually constructed and mutated by the second
`PortfolioService` variant and by `getMockPortfolio`: the fields
`totalEquity`, `dayChange`, `dayChangePercent`, `holdings` (the declared
interface also lists `totalCash`/`totalValue`, which this code never
reads nor writes). -/
structure Portfolio where
  totalEquity : ℚ
  dayChange : ℚ
  dayChangePercent : ℚ
  holdings : List StockHolding
deriving DecidableEq

/-- The predicate `h => h.stock.symbol === stock.symbol` used by the
`find` calls of the service. -/
def symMatches (sym : String) (h : StockHolding) : Bool :=
  h.stock.symbol == sym

/-- `currentPortfolio.holdings.find(h => h.stock.symbol === stock.symbol)`. -/
def findHolding (p : Portfolio) (sym : String) : Option StockHolding :=
  p.holdings.find? (symMatches sym)

/-- The in-place mutation of `existingHolding` in `addStock`
(part_005 lines 164-175).  The `stock` field of the holding is not
reassigned by the code, so it keeps the stock object of the first buy. -/
def updateExistingHolding (h : StockHolding) (stock : Stock) (quantity : ℚ) :
    StockHolding :=
  let oldValue := h.quantity * h.averagePrice
  let newValue := oldValue + stock.price * quantity
  let newTotalShares := h.quantity + quantity
  let newAveragePrice := newValue / newTotalShares
  { h with
    quantity := newTotalShares
    averagePrice := newAveragePrice
    totalValue := stock.price * newTotalShares
    gainLoss := (stock.price - newAveragePrice) * newTotalShares
    gainLossPercent := (stock.price - newAveragePrice) / newAveragePrice * 100 }

/-- The `newHolding` object literal of `addStock` (part_005 lines 177-185):
`gainLoss = purchaseValue * 0.0001` and `gainLossPercent = 0.01`, the
deliberate "small positive initial gain" of the source. -/
def newHoldingFor (stock : Stock) (quantity : ℚ) : StockHolding :=
  let purchaseValue := stock.price * quantity
  { stock := stock
    quantity := quantity
    averagePrice := stock.price
    totalValue := purchaseValue
    gainLoss := purchaseValue * (1 / 10000)
    gainLossPercent := 1 / 100 }

/-- JavaScript `Array.prototype.find` hands back a reference to the first
matching element; mutating it in place rewrites exactly that element of
the array.  `updateFirstMatching sym f l` rewrites the first element of
`l` whose stock symbol is `sym` with `f` and leaves the rest alone. -/
def updateFirstMatching (sym : String) (f : StockHolding → StockHolding) :
    List StockHolding → List StockHolding
  | [] => []
  | h :: t =>
    if symMatches sym h then f h :: t
    else h :: updateFirstMatching sym f t

/-- `reduce((sum, holding) => sum + holding.stock.change * holding.quantity, 0)`
(part_005 lines 194-197). -/
def sumDayChange (hs : List StockHolding) : ℚ :=
  hs.foldl (fun sum h => sum + h.stock.change * h.quantity) 0

/-- Independent recomputation of total equity from the holdings set,
`reduce((sum, holding) => sum + holding.totalValue, 0)` — the formula the
spec asserts for `totalEquity`. -/
def sumTotalValue (hs : List StockHolding) : ℚ :=
  hs.foldl (fun sum h => sum + h.totalValue) 0

/-- The holdings array after the `if (existingHolding) ... else ...` of
`addStock` (part_005 lines 161-188): the first holding with a matching
symbol is mutated in place; otherwise the new holding is pushed at the
end. -/
def buyHoldings (p : Portfolio) (stock : Stock) (quantity : ℚ) :
    List StockHolding :=
  if (p.holdings.find? (symMatches stock.symbol)).isSome then
    updateFirstMatching stock.symbol
      (fun h => updateExistingHolding h stock quantity) p.holdings
  else
    p.holdings ++ [newHoldingFor stock quantity]

/-- The mutated portfolio at the end of a successful `addStock`
(part_005 lines 161-204): `totalEquity += purchaseValue` (incremental),
`dayChange` recomputed from all holdings, `dayChangePercent` guarded
against a zero denominator and scaled by 100. -/
def buyResult (p : Portfolio) (stock : Stock) (quantity : ℚ) : Portfolio :=
  let holdings := buyHoldings p stock quantity
  let totalEquity := p.totalEquity + stock.price * quantity
  let dayChange := sumDayChange holdings
  let portfolioWithoutChange := totalEquity - dayChange
  { totalEquity := totalEquity
    dayChange := dayChange
    dayChangePercent :=
      if portfolioWithoutChange ≠ 0 then
        dayChange / portfolioWithoutChange * 100
      else 0
    holdings := holdings }

/-- The body of the `try` block of `addStock` (part_005 lines 144-207),
for a service whose portfolio subject is initialized (the constructor
always initializes it, since `getMockPortfolio` is a pure object
construction that cannot throw).  A thrown `Error` is an
`Except.error` carrying its message string; the checks all precede any
mutation, exactly as in the source. -/
def applyBuy (p : Portfolio) (stock : Stock) (quantity : ℚ) :
    Except String Portfolio :=
  if stock.symbol = "" then
    Except.error "Invalid stock data"
  else if stock.price * quantity < 1 / 100 ∨ 1000000 < stock.price * quantity then
    Except.error "Purchase amount must be between $0.01 and $1,000,000"
  else
    Except.ok (buyResult p stock quantity)

/-- Observable outcome of one `addStock` call: the portfolio subject's
value after the call, the portfolio value emitted to subscribers (if
any), and the message handed to `ErrorHandlerService.handleError` by the
`catch` block (if any). -/
structure AddStockOutcome where
  state : Portfolio
  published : Option Portfolio
  handledError : Option String
deriving DecidableEq

/-- The whole `addStock` method including its try/catch (part_005 lines
143-211): on success the mutated portfolio is published via
`portfolioSubject.next`; on a thrown validation error the catch block
hands the error to the error handler, nothing is published, and the
subject's value is untouched (every throw precedes the first mutation). -/
def addStock (p : Portfolio) (stock : Stock) (quantity : ℚ) : AddStockOutcome :=
  match applyBuy p stock quantity with
  | Except.ok p' => { state := p', published := some p', handledError := none }
  | Except.error e => { state := p, published := none, handledError := some e }

/-- Fold a list of buy requests through the service, starting from a
given subject value; failed calls leave the state unchanged (the method
never rethrows), exactly as `addStock` models. -/
def runBuys (p : Portfolio) : List (Stock × ℚ) → Portfolio
  | [] => p
  | (s, q) :: rest => runBuys (addStock p s q).state rest

/-! ### Mock data seed (mock-data.service.ts) -/

/-- First element of `getMockStocks()`: AAPL at 105.44, change 24.12. -/
def aaplStock : Stock :=
  { symbol := "AAPL", companyName := "Apple Inc.", price := 10544 / 100
    change := 2412 / 100, changePercent := 229 / 1000, volume := 68544000
    logo := "assets/icon/brand/figma.svg" }

/-- Second element of `getMockStocks()`: TSLA. -/
def tslaStock : Stock :=
  { symbol := "TSLA", companyName := "Tesla Inc.", price := 10544 / 100
    change := 2412 / 100, changePercent := 229 / 1000, volume := 85430000
    logo := "assets/icon/brand/figma.svg" }

/-- Third element of `getMockStocks()`: TIK. -/
def tikStock : Stock :=
  { symbol := "TIK", companyName := "TikTok Inc.", price := 10544 / 100
    change := 2412 / 100, changePercent := 229 / 1000, volume := 32100000
    logo := "assets/icon/brand/figma.svg" }

/-- The holding literal of `getMockPortfolio()` shared by its three
seeded positions: quantity 3.0282 at average price 81.32. -/
def mockHolding (s : Stock) : StockHolding :=
  { stock := s, quantity := 30282 / 10000, averagePrice := 8132 / 100
    totalValue := s.price * (30282 / 10000)
    gainLoss := (s.price - 8132 / 100) * (30282 / 10000)
    gainLossPercent := 229 / 1000 }

/-- `MockDataService.getMockPortfolio()` (mock-data.service.ts lines
69-106): three holdings, `totalEquity` hard-coded to 8036.0, `dayChange`
the reduce of the holdings' `gainLoss`, `dayChangePercent` computed
without the `* 100` factor and without a zero guard. -/
def mockPortfolio : Portfolio :=
  let holdings := [mockHolding aaplStock, mockHolding tslaStock, mockHolding tikStock]
  let totalEquity : ℚ := 8036
  let totalGainLoss := holdings.foldl (fun sum h => sum + h.gainLoss) 0
  { totalEquity := totalEquity
    dayChange := totalGainLoss
    dayChangePercent := totalGainLoss / (totalEquity - totalGainLoss)
    holdings := holdings }

/-! ### ModalService (modal.service.ts) -/

/-- Observable state of `ModalService`: the current values of the two
`BehaviorSubject`s plus the full sequence of values each one has
published (oldest first; a `BehaviorSubject` publishes its initial value
to any subscriber, so the logs start with the constructor arguments). -/
structure ModalService where
  visible : Bool
  selectedStock : Option Stock
  visibleLog : List Bool
  stockLog : List (Option Stock)
deriving DecidableEq

/-- The freshly constructed service:
`orderModalVisible = new BehaviorSubject<boolean>(false)`,
`selectedStock = new BehaviorSubject<Stock | null>(null)`. -/
def initialModalService : ModalService :=
  { visible := false, selectedStock := none
    visibleLog := [false], stockLog := [none] }

/-- `this.orderModalVisible.next(b)`. -/
def pushVisible (m : ModalService) (b : Bool) : ModalService :=
  { m with visible := b, visibleLog := m.visibleLog ++ [b] }

/-- `this.selectedStock.next(s)`. -/
def pushStock (m : ModalService) (s : Option Stock) : ModalService :=
  { m with selectedStock := s, stockLog := m.stockLog ++ [s] }

/-- `openOrderModal(stock)`: publishes the selection first, then
visibility `true`. -/
def openOrderModal (m : ModalService) (stock : Stock) : ModalService :=
  pushVisible (pushStock m (some stock)) true

/-- `closeOrderModal()`: publishes visibility `false` only; the comment
in the source says the stock data is deliberately kept. -/
def closeOrderModal (m : ModalService) : ModalService :=
  pushVisible m false

/-- The shallow copy `{ ...currentStock, change: 0, changePercent: 0 }`. -/
def zeroDelta (s : Stock) : Stock :=
  { s with change := 0, changePercent := 0 }

/-- `updateStockAfterOrder()`: publishes visibility `false`; if a stock
is selected, publishes a zero-delta copy of it; then publishes `null`
unconditionally. -/
def updateStockAfterOrder (m : ModalService) : ModalService :=
  let m1 := pushVisible m false
  let m2 :=
    match m1.selectedStock with
    | some c => pushStock m1 (some (zeroDelta c))
    | none => m1
  pushStock m2 none

/-- `toggleOrderModal(stock?)`: closes when visible, opens when a stock
argument is supplied, otherwise does nothing. -/
def toggleOrderModal (m : ModalService) (stock : Option Stock) : ModalService :=
  if m.visible then closeOrderModal m
  else
    match stock with
    | some s => openOrderModal m s
    | none => m

/-- One public command of `ModalService`
(`forceCloseOrderModal` just delegates to `closeOrderModal`). -/
inductive ModalOp where
  | doOpen (s : Stock)
  | doClose
  | doUpdate
  | doToggle (s : Option Stock)
deriving DecidableEq

/-- Run a sequence of `ModalService` commands. -/
def runModalOps (m : ModalService) : List ModalOp → ModalService
  | [] => m
  | op :: rest =>
    let m' :=
      match op with
      | ModalOp.doOpen s => openOrderModal m s
      | ModalOp.doClose => closeOrderModal m
      | ModalOp.doUpdate => updateStockAfterOrder m
      | ModalOp.doToggle s => toggleOrderModal m s
    runModalOps m' rest

/-- The order surface is never visible without a selected stock. -/
def modalInv (m : ModalService) : Prop :=
  m.visible = true → m.selectedStock ≠ none

/-! ### Concrete fixtures used by witnesses and counterexamples -/

/-- The AAPL-at-100 stock of the spec's example scenario. -/
def aapl100 : Stock :=
  { symbol := "AAPL", companyName := "Apple Inc.", price := 100
    change := 0, changePercent := 0, volume := 0, logo := "" }

/-- The same stock quoted at 120 for the example's second buy. -/
def aapl120 : Stock := { aapl100 with price := 120 }

/-- A portfolio holding nothing: the example scenario starts from a
portfolio with no AAPL holding. -/
def emptyPortfolio : Portfolio :=
  { totalEquity := 0, dayChange := 0, dayChangePercent := 0, holdings := [] }

/-- Subject state after the example's first buy (2 shares at 100). -/
def exampleAfterFirstBuy : Portfolio := (addStock emptyPortfolio aapl100 2).state

/-- A stock whose `symbol` is the empty string (JavaScript falsy),
rejected by the first validation check of `addStock`. -/
def unnamedStock : Stock := { aapl100 with symbol := "" }

/-- At most one holding per stock symbol. -/
def symbolsNodup (p : Portfolio) : Prop :=
  (p.holdings.map (fun h => h.stock.symbol)).Nodup

/-! ### Field-level unfolding lemmas -/

theorem updateExistingHolding_stock (h : StockHolding) (s : Stock) (q : ℚ) :
    (updateExistingHolding h s q).stock = h.stock := rfl

theorem updateExistingHolding_quantity (h : StockHolding) (s : Stock) (q : ℚ) :
    (updateExistingHolding h s q).quantity = h.quantity + q := rfl

theorem updateExistingHolding_averagePrice (h : StockHolding) (s : Stock) (q : ℚ) :
    (updateExistingHolding h s q).averagePrice
      = (h.quantity * h.averagePrice + s.price * q) / (h.quantity + q) := rfl

theorem updateExistingHolding_totalValue (h : StockHolding) (s : Stock) (q : ℚ) :
    (updateExistingHolding h s q).totalValue = s.price * (h.quantity + q) := rfl

theorem updateExistingHolding_gainLoss (h : StockHolding) (s : Stock) (q : ℚ) :
    (updateExistingHolding h s q).gainLoss
      = (s.price - (h.quantity * h.averagePrice + s.price * q) / (h.quantity + q))
          * (h.quantity + q) := rfl

theorem buyResult_holdings (p : Portfolio) (s : Stock) (q : ℚ) :
    (buyResult p s q).holdings = buyHoldings p s q := rfl

theorem buyResult_totalEquity (p : Portfolio) (s : Stock) (q : ℚ) :
    (buyResult p s q).totalEquity = p.totalEquity + s.price * q := rfl

theorem buyResult_dayChange (p : Portfolio) (s : Stock) (q : ℚ) :
    (buyResult p s q).dayChange = sumDayChange (buyHoldings p s q) := rfl

theorem buyResult_dayChangePercent (p : Portfolio) (s : Stock) (q : ℚ) :
    (buyResult p s q).dayChangePercent =
      if (buyResult p s q).totalEquity - (buyResult p s q).dayChange ≠ 0 then
        (buyResult p s q).dayChange
          / ((buyResult p s q).totalEquity - (buyResult p s q).dayChange) * 100
      else 0 := rfl

/-! ### Branch characterisations of addStock -/

theorem buyHoldings_existing (p : Portfolio) (stock : Stock) (q : ℚ)
    (hsome : (p.holdings.find? (symMatches stock.symbol)).isSome) :
    buyHoldings p stock q
      = updateFirstMatching stock.symbol
          (fun h => updateExistingHolding h stock q) p.holdings := by
  unfold buyHoldings
  rw [if_pos hsome]

theorem buyHoldings_new (p : Portfolio) (stock : Stock) (q : ℚ)
    (hnone : p.holdings.find? (symMatches stock.symbol) = none) :
    buyHoldings p stock q = p.holdings ++ [newHoldingFor stock q] := by
  unfold buyHoldings
  rw [hnone]
  rfl

theorem addStock_success_iff (p : Portfolio) (stock : Stock) (q : ℚ) :
    (addStock p stock q).handledError = none ↔
      stock.symbol ≠ "" ∧
        ¬(stock.price * q < 1 / 100 ∨ 1000000 < stock.price * q) := by
  unfold addStock applyBuy
  by_cases hs : stock.symbol = ""
  · rw [if_pos hs]
    simp [hs]
  · rw [if_neg hs]
    by_cases hr : stock.price * q < 1 / 100 ∨ 1000000 < stock.price * q
    · rw [if_pos hr]
      simp [hs]
      intro hle
      rcases hr with hlt | hgt
      · linarith
      · exact hgt
    · rw [if_neg hr]
      simp [hs]
      push_neg at hr
      constructor
      · linarith [hr.1]
      · linarith [hr.2]

theorem addStock_ok (p : Portfolio) (stock : Stock) (q : ℚ)
    (hs : stock.symbol ≠ "")
    (hr : ¬(stock.price * q < 1 / 100 ∨ 1000000 < stock.price * q)) :
    addStock p stock q =
      { state := buyResult p stock q
        published := some (buyResult p stock q)
        handledError := none } := by
  unfold addStock applyBuy
  rw [if_neg hs, if_neg hr]

theorem addStock_err (p : Portfolio) (stock : Stock) (q : ℚ) (e : String)
    (he : applyBuy p stock q = Except.error e) :
    addStock p stock q =
      { state := p, published := none, handledError := some e } := by
  unfold addStock
  rw [he]

/-! ### List lemmas about find? and updateFirstMatching -/

theorem symMatches_of_preserves (sym : String) (f : StockHolding → StockHolding)
    (hf : ∀ h, (f h).stock.symbol = h.stock.symbol) (h : StockHolding)
    (hb : symMatches sym h = true) : symMatches sym (f h) = true := by
  unfold symMatches at hb ⊢
  rw [hf h]
  exact hb

theorem find?_updateFirstMatching (sym : String) (f : StockHolding → StockHolding)
    (hf : ∀ h, (f h).stock.symbol = h.stock.symbol)
    (l : List StockHolding) (h0 : StockHolding)
    (hfind : l.find? (symMatches sym) = some h0) :
    (updateFirstMatching sym f l).find? (symMatches sym) = some (f h0) := by
  induction l with
  | nil => simp at hfind
  | cons h t ih =>
    by_cases hb : symMatches sym h = true
    · rw [List.find?_cons_of_pos _ hb] at hfind
      injection hfind with hh
      subst hh
      unfold updateFirstMatching
      rw [if_pos hb]
      exact List.find?_cons_of_pos _ (symMatches_of_preserves sym f hf h hb)
    · rw [List.find?_cons_of_neg _ hb] at hfind
      unfold updateFirstMatching
      rw [if_neg hb, List.find?_cons_of_neg _ hb]
      exact ih hfind

theorem map_symbol_updateFirstMatching (sym : String)
    (f : StockHolding → StockHolding)
    (hf : ∀ h, (f h).stock.symbol = h.stock.symbol) (l : List StockHolding) :
    (updateFirstMatching sym f l).map (fun h => h.stock.symbol)
      = l.map (fun h => h.stock.symbol) := by
  induction l with
  | nil => rfl
  | cons h t ih =>
    unfold updateFirstMatching
    by_cases hb : symMatches sym h = true
    · rw [if_pos hb]
      simp [hf]
    · rw [if_neg hb]
      simp [ih]

theorem find?_append_of_none {α : Type} (p : α → Bool) (l : List α) (x : α)
    (hx : p x = true) (hl : l.find? p = none) :
    (l ++ [x]).find? p = some x := by
  rw [List.find?_append, hl, List.find?_cons_of_pos _ hx]
  rfl

theorem applyBuy_ok_eq (p : Portfolio) (stock : Stock) (q : ℚ) (p' : Portfolio)
    (h : applyBuy p stock q = Except.ok p') : p' = buyResult p stock q := by
  unfold applyBuy at h
  by_cases hs : stock.symbol = ""
  · rw [if_pos hs] at h
    cases h
  · rw [if_neg hs] at h
    by_cases hr : stock.price * q < 1 / 100 ∨ 1000000 < stock.price * q
    · rw [if_pos hr] at h
      cases h
    · rw [if_neg hr] at h
      injection h with hh
      exact hh.symm

theorem buyHoldings_nodup (p : Portfolio) (stock : Stock) (q : ℚ)
    (hnd : (p.holdings.map (fun h => h.stock.symbol)).Nodup) :
    ((buyHoldings p stock q).map (fun h => h.stock.symbol)).Nodup := by
  unfold buyHoldings
  by_cases hsome : (p.holdings.find? (symMatches stock.symbol)).isSome = true
  · rw [if_pos hsome,
      map_symbol_updateFirstMatching stock.symbol
        (fun h => updateExistingHolding h stock q) (fun h => rfl) p.holdings]
    exact hnd
  · rw [if_neg hsome]
    have hnone : p.holdings.find? (symMatches stock.symbol) = none :=
      Option.not_isSome_iff_eq_none.1 hsome
    have hall := List.find?_eq_none.1 hnone
    rw [List.map_append]
    refine List.Nodup.append hnd (List.nodup_singleton _) ?_
    intro a hamem hasing
    obtain ⟨h, hh, hsym⟩ := List.mem_map.1 hamem
    have hasym : a = stock.symbol := by
      simpa using hasing
    apply hall h hh
    unfold symMatches
    rw [show h.stock.symbol = stock.symbol from hsym.trans hasym]
    exact beq_self_eq_true _

theorem addStock_preserves_symbolsNodup (p : Portfolio) (stock : Stock) (q : ℚ)
    (hnd : symbolsNodup p) : symbolsNodup (addStock p stock q).state := by
  unfold addStock
  cases happ : applyBuy p stock q with
  | error e => exact hnd
  | ok p' =>
    show symbolsNodup p'
    rw [applyBuy_ok_eq p stock q p' happ]
    show ((buyResult p stock q).holdings.map (fun h => h.stock.symbol)).Nodup
    rw [buyResult_holdings]
    exact buyHoldings_nodup p stock q hnd

theorem runBuys_symbolsNodup (reqs : List (Stock × ℚ)) (p : Portfolio)
    (hnd : symbolsNodup p) : symbolsNodup (runBuys p reqs) := by
  induction reqs generalizing p with
  | nil => exact hnd
  | cons r rest ih =>
    cases r with
    | mk s q => exact ih _ (addStock_preserves_symbolsNodup p s q hnd)

/-! ### ModalService helper lemmas -/

theorem updateStockAfterOrder_visible (m : ModalService) :
    (updateStockAfterOrder m).visible = false := by
  rcases m with ⟨v, sel, vlog, slog⟩
  cases sel <;> rfl

theorem updateStockAfterOrder_selected (m : ModalService) :
    (updateStockAfterOrder m).selectedStock = none := by
  rcases m with ⟨v, sel, vlog, slog⟩
  cases sel <;> rfl

theorem modalInv_openOrderModal (m : ModalService) (s : Stock) :
    modalInv (openOrderModal m s) := by
  intro _ hcon
  exact Option.noConfusion hcon

theorem modalInv_closeOrderModal (m : ModalService) :
    modalInv (closeOrderModal m) := by
  intro hv
  exact Bool.noConfusion hv

theorem modalInv_updateStockAfterOrder (m : ModalService) :
    modalInv (updateStockAfterOrder m) := by
  intro hv
  rw [updateStockAfterOrder_visible m] at hv
  exact Bool.noConfusion hv

theorem modalInv_toggleOrderModal (m : ModalService) (s : Option Stock)
    (hm : modalInv m) : modalInv (toggleOrderModal m s) := by
  unfold toggleOrderModal
  by_cases hv : m.visible = true
  · rw [if_pos hv]
    exact modalInv_closeOrderModal m
  · rw [if_neg hv]
    cases s with
    | some st => exact modalInv_openOrderModal m st
    | none => exact hm

theorem runModalOps_inv_general (ops : List ModalOp) (m : ModalService)
    (hm : modalInv m) : modalInv (runModalOps m ops) := by
  induction ops generalizing m with
  | nil => exact hm
  | cons op rest ih =>
    cases op with
    | doOpen s => exact ih _ (modalInv_openOrderModal m s)
    | doClose => exact ih _ (modalInv_closeOrderModal m)
    | doUpdate => exact ih _ (modalInv_updateStockAfterOrder m)
    | doToggle s => exact ih _ (modalInv_toggleOrderModal m s hm)

theorem addStock_handledError_err (p : Portfolio) (stock : Stock) (q : ℚ)
    (e : String) (he : applyBuy p stock q = Except.error e) :
    (addStock p stock q).handledError = some e := by
  unfold addStock
  rw [he]

theorem applyBuy_err_invalid_stock (p : Portfolio) (stock : Stock) (q : ℚ)
    (hs : stock.symbol = "") :
    applyBuy p stock q = Except.error "Invalid stock data" := by
  unfold applyBuy
  rw [if_pos hs]

theorem applyBuy_err_range (p : Portfolio) (stock : Stock) (q : ℚ)
    (hs : stock.symbol ≠ "")
    (hr : stock.price * q < 1 / 100 ∨ 1000000 < stock.price * q) :
    applyBuy p stock q
      = Except.error "Purchase amount must be between $0.01 and $1,000,000" := by
  unfold applyBuy
  rw [if_neg hs, if_pos hr]

theorem addStock_success_of (p : Portfolio) (stock : Stock) (q : ℚ)
    (hs : stock.symbol ≠ "")
    (hr : ¬(stock.price * q < 1 / 100 ∨ 1000000 < stock.price * q)) :
    (addStock p stock q).handledError = none := by
  rw [addStock_ok p stock q hs hr]

theorem exampleAfterFirstBuy_eq :
    exampleAfterFirstBuy = buyResult emptyPortfolio aapl100 2 := by
  unfold exampleAfterFirstBuy
  rw [addStock_ok emptyPortfolio aapl100 2 (by decide) (by norm_num [aapl100])]

theorem exampleAfterFirstBuy_holdings :
    exampleAfterFirstBuy.holdings = [newHoldingFor aapl100 2] := by
  rw [exampleAfterFirstBuy_eq, buyResult_holdings,
    buyHoldings_new emptyPortfolio aapl100 2 rfl]
  rfl

theorem findHolding_exampleAfterFirstBuy :
    findHolding exampleAfterFirstBuy "AAPL" = some (newHoldingFor aapl100 2) := by
  unfold findHolding
  rw [exampleAfterFirstBuy_holdings]
  exact List.find?_cons_of_pos _ (by decide)

/-! ### Claim theorems -/

/-- C1: when the portfolio already holds `(q0, p0)` of `stock.symbol`
with `q0 > 0` and `p0 > 0`, a successful `addStock` of `q1` shares at
price `p = stock.price` updates that holding to quantity `q0+q1`,
averagePrice `(q0*p0 + q1*p)/(q0+q1)`, totalValue `p*(q0+q1)` and
gainLoss `(p - newAveragePrice)*(q0+q1)`; the witness instantiates the
spec's example (2 shares at 100 then 1 at 120: quantity 3, averagePrice
320/3 = 106.666..., totalValue 360). -/
theorem addStock_existing_weighted_update (p : Portfolio) (stock : Stock)
    (q0 p0 q1 : ℚ) (h0 : StockHolding)
    (hfind : findHolding p stock.symbol = some h0)
    (hq0 : h0.quantity = q0) (hp0 : h0.averagePrice = p0)
    (_hq0pos : 0 < q0) (_hp0pos : 0 < p0)
    (hok : (addStock p stock q1).handledError = none) :
    ∃ h1, findHolding (addStock p stock q1).state stock.symbol = some h1 ∧
      h1.quantity = q0 + q1 ∧
      h1.averagePrice = (q0 * p0 + q1 * stock.price) / (q0 + q1) ∧
      h1.totalValue = stock.price * (q0 + q1) ∧
      h1.gainLoss
        = (stock.price - (q0 * p0 + q1 * stock.price) / (q0 + q1)) * (q0 + q1) := by
  obtain ⟨hs, hr⟩ := (addStock_success_iff p stock q1).1 hok
  rw [addStock_ok p stock q1 hs hr]
  unfold findHolding at hfind
  refine ⟨updateExistingHolding h0 stock q1, ?_, ?_, ?_, ?_, ?_⟩
  · show (buyResult p stock q1).holdings.find? (symMatches stock.symbol) = _
    rw [buyResult_holdings,
      buyHoldings_existing p stock q1 (by rw [hfind]; rfl)]
    exact find?_updateFirstMatching stock.symbol
      (fun h => updateExistingHolding h stock q1) (fun h => rfl)
      p.holdings h0 hfind
  · rw [updateExistingHolding_quantity, hq0]
  · rw [updateExistingHolding_averagePrice, hq0, hp0, mul_comm stock.price q1]
  · rw [updateExistingHolding_totalValue, hq0]
  · rw [updateExistingHolding_gainLoss, hq0, hp0, mul_comm stock.price q1]

/-- Witness for C1 at the spec's example scenario: after buying 2 AAPL
at 100, buying 1 more at 120 yields quantity 3, averagePrice
(2*100+1*120)/3 = 320/3 and totalValue 120*3 = 360. -/
theorem addStock_existing_weighted_update_witness :
    ∃ h1,
      findHolding (addStock exampleAfterFirstBuy aapl120 1).state aapl120.symbol
        = some h1 ∧
      h1.quantity = 2 + 1 ∧
      h1.averagePrice = (2 * 100 + 1 * aapl120.price) / (2 + 1) ∧
      h1.totalValue = aapl120.price * (2 + 1) ∧
      h1.gainLoss
        = (aapl120.price - (2 * 100 + 1 * aapl120.price) / (2 + 1)) * (2 + 1) :=
  addStock_existing_weighted_update exampleAfterFirstBuy aapl120 2 100 1
    (newHoldingFor aapl100 2) findHolding_exampleAfterFirstBuy rfl rfl
    (by norm_num) (by norm_num)
    (addStock_success_of exampleAfterFirstBuy aapl120 1 (by decide)
      (by norm_num [aapl120, aapl100]))

/-- C2 counterexample: the aggregates are not pure functions of the
holdings set.  Already in the seed portfolio published at construction,
`totalEquity` is the hard-coded 8036 while the sum of the holdings'
`totalValue` is 957.880224 (= 29933757/31250). -/
theorem seed_totalEquity_not_sum_counterexample :
    mockPortfolio.totalEquity = 8036 ∧
    sumTotalValue mockPortfolio.holdings = 29933757 / 31250 ∧
    ¬(mockPortfolio.totalEquity = sumTotalValue mockPortfolio.holdings) := by
  refine ⟨rfl, ?_, ?_⟩
  · norm_num [sumTotalValue, mockPortfolio, mockHolding, aaplStock, tslaStock,
      tikStock]
  · norm_num [sumTotalValue, mockPortfolio, mockHolding, aaplStock, tslaStock,
      tikStock]

/-- C2 (amended): on every successful `addStock`, `totalEquity` is
maintained incrementally (`+= purchaseValue`, not recomputed from the
holdings), while `dayChange` is recomputed as the sum over holdings of
`stock.change * quantity` and `dayChangePercent` equals
`dayChange / (totalEquity - dayChange) * 100`, zero-guarded; the seed
portfolio's `totalEquity` is the constant 8036 regardless of its
holdings. -/
theorem addStock_aggregate_maintenance (p : Portfolio) (stock : Stock) (q : ℚ)
    (hok : (addStock p stock q).handledError = none) :
    (addStock p stock q).state.totalEquity = p.totalEquity + stock.price * q ∧
    (addStock p stock q).state.dayChange
      = sumDayChange (addStock p stock q).state.holdings ∧
    (addStock p stock q).state.dayChangePercent =
      (if (addStock p stock q).state.totalEquity
            - (addStock p stock q).state.dayChange ≠ 0 then
        (addStock p stock q).state.dayChange
          / ((addStock p stock q).state.totalEquity
              - (addStock p stock q).state.dayChange) * 100
      else 0) ∧
    mockPortfolio.totalEquity = 8036 := by
  obtain ⟨hs, hr⟩ := (addStock_success_iff p stock q).1 hok
  rw [addStock_ok p stock q hs hr]
  exact ⟨buyResult_totalEquity p stock q, buyResult_dayChange p stock q,
    buyResult_dayChangePercent p stock q, rfl⟩

/-- Witness for the amended C2 at a concrete successful buy on the seed
portfolio. -/
theorem addStock_aggregate_maintenance_witness :
    (addStock mockPortfolio aapl100 2).state.totalEquity
      = mockPortfolio.totalEquity + aapl100.price * 2 ∧
    (addStock mockPortfolio aapl100 2).state.dayChange
      = sumDayChange (addStock mockPortfolio aapl100 2).state.holdings ∧
    (addStock mockPortfolio aapl100 2).state.dayChangePercent =
      (if (addStock mockPortfolio aapl100 2).state.totalEquity
            - (addStock mockPortfolio aapl100 2).state.dayChange ≠ 0 then
        (addStock mockPortfolio aapl100 2).state.dayChange
          / ((addStock mockPortfolio aapl100 2).state.totalEquity
              - (addStock mockPortfolio aapl100 2).state.dayChange) * 100
      else 0) ∧
    mockPortfolio.totalEquity = 8036 :=
  addStock_aggregate_maintenance mockPortfolio aapl100 2
    (addStock_success_of mockPortfolio aapl100 2 (by decide)
      (by norm_num [aapl100]))

/-- C3 counterexample: at the concrete invalid input (empty symbol), the
`try` block throws `Error("Invalid stock data")` — the repository has no
`ValidationError` class — and `addStock`'s own `catch` hands the message
to `ErrorHandlerService.handleError` and returns normally: the immediate
caller of `addStock` never receives any raised error. -/
theorem addStock_error_swallowed_counterexample :
    applyBuy mockPortfolio unnamedStock 1 = Except.error "Invalid stock data" ∧
    addStock mockPortfolio unnamedStock 1 =
      { state := mockPortfolio, published := none
        handledError := some "Invalid stock data" } := by
  have he := applyBuy_err_invalid_stock mockPortfolio unnamedStock 1 rfl
  refine ⟨he, ?_⟩
  unfold addStock
  rw [he]

/-- C3 (amended): given the initialized portfolio subject, the `try`
block of `addStock` throws exactly when the stock has an empty symbol or
the purchase value `price * quantity` lies outside [0.01, 1000000]; the
error is a plain `Error` caught by `addStock` itself and routed to the
error handler, never rethrown to the caller, and for every input
satisfying the preconditions the call completes and publishes the
updated portfolio. -/
theorem addStock_validation_behaviour (p : Portfolio) (stock : Stock) (q : ℚ) :
    ((addStock p stock q).handledError.isSome ↔
      (stock.symbol = "" ∨ stock.price * q < 1 / 100
        ∨ 1000000 < stock.price * q)) ∧
    ((addStock p stock q).handledError = none →
      (addStock p stock q).published = some (addStock p stock q).state) := by
  constructor
  · rw [Option.isSome_iff_ne_none, ne_eq, addStock_success_iff]
    tauto
  · intro hok
    obtain ⟨hs, hr⟩ := (addStock_success_iff p stock q).1 hok
    rw [addStock_ok p stock q hs hr]

/-- Witness for the amended C3: a valid buy publishes the new state, and
the error condition is decidable at a concrete invalid input. -/
theorem addStock_validation_behaviour_witness :
    ((addStock mockPortfolio aapl100 2).handledError.isSome ↔
      (aapl100.symbol = "" ∨ aapl100.price * 2 < 1 / 100
        ∨ 1000000 < aapl100.price * 2)) ∧
    (addStock mockPortfolio aapl100 2).published
      = some (addStock mockPortfolio aapl100 2).state :=
  ⟨(addStock_validation_behaviour mockPortfolio aapl100 2).1,
   (addStock_validation_behaviour mockPortfolio aapl100 2).2
     (addStock_success_of mockPortfolio aapl100 2 (by decide)
       (by norm_num [aapl100]))⟩

/-- C4: `addStock` is atomic on failure — whenever the call reports an
error, the portfolio subject's value is exactly the pre-call snapshot
and nothing is published to subscribers. -/
theorem addStock_atomic_on_failure (p : Portfolio) (stock : Stock) (q : ℚ)
    (e : String) (herr : (addStock p stock q).handledError = some e) :
    (addStock p stock q).state = p ∧ (addStock p stock q).published = none := by
  unfold addStock at herr ⊢
  cases happ : applyBuy p stock q with
  | ok p' =>
    rw [happ] at herr
    exact Option.noConfusion herr
  | error e' => exact ⟨rfl, rfl⟩

/-- Witness for C4 at the two failing inputs named by the spec:
purchase value 0 (quantity 0 at price 100) and purchase value 2000000
(20000 shares at price 100). -/
theorem addStock_atomic_on_failure_witness :
    ((addStock mockPortfolio aapl100 0).state = mockPortfolio ∧
      (addStock mockPortfolio aapl100 0).published = none) ∧
    ((addStock mockPortfolio aapl100 20000).state = mockPortfolio ∧
      (addStock mockPortfolio aapl100 20000).published = none) :=
  ⟨addStock_atomic_on_failure mockPortfolio aapl100 0
      "Purchase amount must be between $0.01 and $1,000,000"
      (addStock_handledError_err mockPortfolio aapl100 0 _
        (applyBuy_err_range mockPortfolio aapl100 0 (by decide)
          (Or.inl (by norm_num [aapl100])))),
   addStock_atomic_on_failure mockPortfolio aapl100 20000
      "Purchase amount must be between $0.01 and $1,000,000"
      (addStock_handledError_err mockPortfolio aapl100 20000 _
        (applyBuy_err_range mockPortfolio aapl100 20000 (by decide)
          (Or.inr (by norm_num [aapl100]))))⟩

/-- C5 counterexample: the very first buy of the example (2 shares of
AAPL at 100, a symbol with no holding) creates the holding with
`gainLoss = 200 * 0.0001 = 0.02 ≠ 0` and `gainLossPercent = 0.01 ≠ 0`:
a fake nonzero initial gain is seeded in the store. -/
theorem new_holding_fake_gain_counterexample :
    findHolding (addStock emptyPortfolio aapl100 2).state "AAPL"
      = some (newHoldingFor aapl100 2) ∧
    (newHoldingFor aapl100 2).averagePrice = aapl100.price ∧
    (newHoldingFor aapl100 2).gainLoss = 1 / 50 ∧
    (newHoldingFor aapl100 2).gainLossPercent = 1 / 100 ∧
    ¬((newHoldingFor aapl100 2).gainLoss = 0) ∧
    ¬((newHoldingFor aapl100 2).gainLossPercent = 0) := by
  refine ⟨findHolding_exampleAfterFirstBuy, rfl, ?_, rfl, ?_, ?_⟩
  · norm_num [newHoldingFor, aapl100]
  · norm_num [newHoldingFor, aapl100]
  · norm_num [newHoldingFor]

/-- C5 (amended): a successful buy of a symbol with no existing holding
creates the holding with `averagePrice = stock.price`, `quantity = q`
and `totalValue = price*q`, but seeds `gainLoss = price*q*0.0001` and
`gainLossPercent = 0.01` — a small fake positive gain, not zero. -/
theorem addStock_new_holding_spec (p : Portfolio) (stock : Stock) (q : ℚ)
    (hnone : findHolding p stock.symbol = none)
    (hok : (addStock p stock q).handledError = none) :
    ∃ h1, findHolding (addStock p stock q).state stock.symbol = some h1 ∧
      h1.averagePrice = stock.price ∧
      h1.quantity = q ∧
      h1.totalValue = stock.price * q ∧
      h1.gainLoss = stock.price * q * (1 / 10000) ∧
      h1.gainLossPercent = 1 / 100 := by
  obtain ⟨hs, hr⟩ := (addStock_success_iff p stock q).1 hok
  rw [addStock_ok p stock q hs hr]
  unfold findHolding at hnone
  refine ⟨newHoldingFor stock q, ?_, rfl, rfl, rfl, rfl, rfl⟩
  show (buyResult p stock q).holdings.find? (symMatches stock.symbol) = _
  rw [buyResult_holdings, buyHoldings_new p stock q hnone]
  exact find?_append_of_none _ _ _ (beq_self_eq_true stock.symbol) hnone

/-- Witness for the amended C5 at the example's first buy. -/
theorem addStock_new_holding_spec_witness :
    ∃ h1,
      findHolding (addStock emptyPortfolio aapl100 2).state aapl100.symbol
        = some h1 ∧
      h1.averagePrice = aapl100.price ∧
      h1.quantity = 2 ∧
      h1.totalValue = aapl100.price * 2 ∧
      h1.gainLoss = aapl100.price * 2 * (1 / 10000) ∧
      h1.gainLossPercent = 1 / 100 :=
  addStock_new_holding_spec emptyPortfolio aapl100 2 rfl
    (addStock_success_of emptyPortfolio aapl100 2 (by decide)
      (by norm_num [aapl100]))

/-- C6: along every sequence of `addStock` calls from the seed, the
holdings list keeps at most one holding per symbol; a successful buy of
an owned symbol rewrites the matching holding in place (the symbol list
is unchanged, so nothing is appended), and a successful buy of a new
symbol appends exactly the one new holding. -/
theorem holdings_unique_per_symbol (reqs : List (Stock × ℚ)) :
    symbolsNodup (runBuys mockPortfolio reqs) ∧
    (∀ p stock q, (findHolding p stock.symbol).isSome →
        (addStock p stock q).handledError = none →
        (addStock p stock q).state.holdings.map (fun h => h.stock.symbol)
          = p.holdings.map (fun h => h.stock.symbol)) ∧
    (∀ p stock q, findHolding p stock.symbol = none →
        (addStock p stock q).handledError = none →
        (addStock p stock q).state.holdings
          = p.holdings ++ [newHoldingFor stock q]) := by
  refine ⟨runBuys_symbolsNodup reqs mockPortfolio
    (by unfold symbolsNodup; decide), ?_, ?_⟩
  · intro p stock q hsome hok
    obtain ⟨hs, hr⟩ := (addStock_success_iff p stock q).1 hok
    rw [addStock_ok p stock q hs hr]
    show (buyResult p stock q).holdings.map _ = _
    rw [buyResult_holdings, buyHoldings_existing p stock q hsome]
    exact map_symbol_updateFirstMatching stock.symbol
      (fun h => updateExistingHolding h stock q) (fun h => rfl) p.holdings
  · intro p stock q hnone hok
    obtain ⟨hs, hr⟩ := (addStock_success_iff p stock q).1 hok
    rw [addStock_ok p stock q hs hr]
    show (buyResult p stock q).holdings = _
    rw [buyResult_holdings]
    exact buyHoldings_new p stock q hnone

/-- Witness for C6: uniqueness after a concrete buy sequence on the
seed, in-place update at the example's second buy, and a single append
at the example's first buy. -/
theorem holdings_unique_per_symbol_witness :
    symbolsNodup (runBuys mockPortfolio [(aapl100, 2), (aapl120, 1)]) ∧
    (addStock exampleAfterFirstBuy aapl120 1).state.holdings.map
        (fun h => h.stock.symbol)
      = exampleAfterFirstBuy.holdings.map (fun h => h.stock.symbol) ∧
    (addStock emptyPortfolio aapl100 2).state.holdings
      = emptyPortfolio.holdings ++ [newHoldingFor aapl100 2] :=
  ⟨(holdings_unique_per_symbol [(aapl100, 2), (aapl120, 1)]).1,
   (holdings_unique_per_symbol []).2.1 exampleAfterFirstBuy aapl120 1
     (by rw [show findHolding exampleAfterFirstBuy aapl120.symbol
           = some (newHoldingFor aapl100 2) from findHolding_exampleAfterFirstBuy]
         rfl)
     (addStock_success_of exampleAfterFirstBuy aapl120 1 (by decide)
       (by norm_num [aapl120, aapl100])),
   (holdings_unique_per_symbol []).2.2 emptyPortfolio aapl100 2 rfl
     (addStock_success_of emptyPortfolio aapl100 2 (by decide)
       (by norm_num [aapl100]))⟩

/-- C7: buying `(q1, p1)` and then `(q2, p2)` of a symbol the portfolio
did not hold yields quantity `q1+q2` and exactly the pooled weighted
average `(q1*p1 + q2*p2)/(q1+q2)` — over ℚ the associativity holds
exactly, which is stronger than the claimed 1e-9 relative tolerance. -/
theorem weighted_average_pooling (p : Portfolio) (s1 s2 : Stock) (q1 q2 : ℚ)
    (hsym : s2.symbol = s1.symbol)
    (hnone : findHolding p s1.symbol = none)
    (_hq1 : 0 < q1) (_hq2 : 0 < q2)
    (h1 : (addStock p s1 q1).handledError = none)
    (h2 : (addStock (addStock p s1 q1).state s2 q2).handledError = none) :
    ∃ h3,
      findHolding (addStock (addStock p s1 q1).state s2 q2).state s2.symbol
        = some h3 ∧
      h3.quantity = q1 + q2 ∧
      h3.averagePrice = (q1 * s1.price + q2 * s2.price) / (q1 + q2) := by
  obtain ⟨hs1, hr1⟩ := (addStock_success_iff p s1 q1).1 h1
  have hstate1 : (addStock p s1 q1).state = buyResult p s1 q1 := by
    rw [addStock_ok p s1 q1 hs1 hr1]
  rw [hstate1] at h2 ⊢
  unfold findHolding at hnone
  have hfind1 : (buyResult p s1 q1).holdings.find? (symMatches s1.symbol)
      = some (newHoldingFor s1 q1) := by
    rw [buyResult_holdings, buyHoldings_new p s1 q1 hnone]
    exact find?_append_of_none _ _ _ (beq_self_eq_true s1.symbol) hnone
  have hfind1' : (buyResult p s1 q1).holdings.find? (symMatches s2.symbol)
      = some (newHoldingFor s1 q1) := by
    rw [hsym]
    exact hfind1
  obtain ⟨hs2, hr2⟩ := (addStock_success_iff (buyResult p s1 q1) s2 q2).1 h2
  rw [addStock_ok (buyResult p s1 q1) s2 q2 hs2 hr2]
  refine ⟨updateExistingHolding (newHoldingFor s1 q1) s2 q2, ?_, ?_, ?_⟩
  · show (buyResult (buyResult p s1 q1) s2 q2).holdings.find?
        (symMatches s2.symbol) = _
    rw [buyResult_holdings,
      buyHoldings_existing (buyResult p s1 q1) s2 q2 (by rw [hfind1']; rfl)]
    exact find?_updateFirstMatching s2.symbol
      (fun h => updateExistingHolding h s2 q2) (fun h => rfl)
      (buyResult p s1 q1).holdings (newHoldingFor s1 q1) hfind1'
  · show (newHoldingFor s1 q1).quantity + q2 = q1 + q2
    rfl
  · show ((newHoldingFor s1 q1).quantity * (newHoldingFor s1 q1).averagePrice
        + s2.price * q2) / ((newHoldingFor s1 q1).quantity + q2) = _
    show (q1 * s1.price + s2.price * q2) / (q1 + q2) = _
    rw [mul_comm s2.price q2]

/-- Witness for C7 at the example scenario: 2 at 100 then 1 at 120 on a
fresh symbol gives quantity 3 and averagePrice (2*100+1*120)/3. -/
theorem weighted_average_pooling_witness :
    ∃ h3,
      findHolding
          (addStock (addStock emptyPortfolio aapl100 2).state aapl120 1).state
          aapl120.symbol
        = some h3 ∧
      h3.quantity = 2 + 1 ∧
      h3.averagePrice = (2 * aapl100.price + 1 * aapl120.price) / (2 + 1) :=
  weighted_average_pooling emptyPortfolio aapl100 aapl120 2 1 rfl rfl
    (by norm_num) (by norm_num)
    (addStock_success_of emptyPortfolio aapl100 2 (by decide)
      (by norm_num [aapl100]))
    (addStock_success_of (addStock emptyPortfolio aapl100 2).state aapl120 1
      (by decide) (by norm_num [aapl120, aapl100]))

/-- C8: `updateStockAfterOrder` from any broker state ends with
`visible = false` and `selectedStock = none`; when a stock was selected,
the selection stream publishes the shallow copy with zeroed
change/changePercent first and the cleared `none` selection second. -/
theorem updateStockAfterOrder_finalizes (m : ModalService) :
    (updateStockAfterOrder m).visible = false ∧
    (updateStockAfterOrder m).selectedStock = none ∧
    (∀ c, m.selectedStock = some c →
      (updateStockAfterOrder m).stockLog
        = m.stockLog ++ [some (zeroDelta c), none]) ∧
    (m.selectedStock = none →
      (updateStockAfterOrder m).stockLog = m.stockLog ++ [none]) := by
  rcases m with ⟨v, sel, vlog, slog⟩
  cases sel with
  | none =>
    refine ⟨rfl, rfl, ?_, ?_⟩
    · intro c hc
      exact Option.noConfusion hc
    · intro _
      rfl
  | some c0 =>
    refine ⟨rfl, rfl, ?_, ?_⟩
    · intro c hc
      injection hc with hc
      subst hc
      show slog ++ [some (zeroDelta c0)] ++ [none]
          = slog ++ [some (zeroDelta c0), none]
      simp
    · intro hc
      exact Option.noConfusion hc

/-- Witness for C8 after selecting AAPL from the initial state. -/
theorem updateStockAfterOrder_finalizes_witness :
    (updateStockAfterOrder (openOrderModal initialModalService aapl100)).visible
      = false ∧
    (updateStockAfterOrder
        (openOrderModal initialModalService aapl100)).selectedStock = none ∧
    (updateStockAfterOrder (openOrderModal initialModalService aapl100)).stockLog
      = (openOrderModal initialModalService aapl100).stockLog
          ++ [some (zeroDelta aapl100), none] :=
  ⟨(updateStockAfterOrder_finalizes (openOrderModal initialModalService aapl100)).1,
   (updateStockAfterOrder_finalizes (openOrderModal initialModalService aapl100)).2.1,
   (updateStockAfterOrder_finalizes
      (openOrderModal initialModalService aapl100)).2.2.1 aapl100 rfl⟩

/-- C9: `closeOrderModal` from any broker state publishes
`visible = false`, leaves the selection value and the selection stream
untouched, and in particular after `select(A); close()` the selection
still reads `A`. -/
theorem closeOrderModal_preserves_selection (m : ModalService) (a : Stock) :
    (closeOrderModal m).visible = false ∧
    (closeOrderModal m).selectedStock = m.selectedStock ∧
    (closeOrderModal m).stockLog = m.stockLog ∧
    (closeOrderModal (openOrderModal m a)).selectedStock = some a :=
  ⟨rfl, rfl, rfl, rfl⟩

/-- C10 (implicit): in every `ModalService` state reachable from the
initial state by any sequence of open/close/update/toggle commands, a
visible order surface always has a selected stock. -/
theorem modal_visible_implies_selection (ops : List ModalOp) :
    modalInv (runModalOps initialModalService ops) :=
  runModalOps_inv_general ops initialModalService
    (fun hv => Bool.noConfusion hv)

end StakeApp
